import Mathlib

set_option maxRecDepth 10000

/-!
Shallow embedding of the CDO equation controller and parameter store of
`src/cdo/cs_equation.c` (code_saturne).  Enumerations, structures and the
state-changing functions are translated from the C source; collaborators that
live outside this file (mesh-location registry, field registry, scheme
builders, sparse solvers) are passed in as explicit arguments or kept as
opaque integer handles, exactly where the C code goes through an external
call or stores an opaque pointer.
-/

namespace CsEquation

/-- Space discretization schemes (cs_space_scheme_t); the sentinel value
CS_SPACE_N_SCHEMES closes the enum. -/
inductive SpaceScheme
  | cdovb
  | cdofb
  | nSchemes
deriving DecidableEq

/-- Discrete Hodge operator types (cs_param_hodge_type_t, the values used in
cs_equation.c). -/
inductive HodgeType
  | vpcd
  | epfd
  | cpvd
  | edfp
deriving DecidableEq

/-- Discrete Hodge operator algorithms (cs_param_hodge_algo_t). -/
inductive HodgeAlgo
  | voronoi
  | cost
  | wbs
deriving DecidableEq

/-- Time discretization schemes (cs_time_scheme_t). -/
inductive TimeSchemeKind
  | implicitScheme
  | explicitScheme
  | crankNicolson
  | thetaScheme
deriving DecidableEq

/-- Advection operator formulation (cs_param_advection_form_t). -/
inductive AdvFormulation
  | conservative
  | nonConservative
deriving DecidableEq

/-- Advection weighting algorithm (cs_param_advection_weight_algo_t). -/
inductive AdvWeightAlgo
  | upwind
  | samarskii
  | sg
  | d10g5
  | centered
deriving DecidableEq

/-- Advection weighting criterion (cs_param_advection_weight_t). -/
inductive AdvWeightCrit
  | xexc
  | flux
deriving DecidableEq

/-- Quadrature rules (cs_quadra_type_t). -/
inductive QuadType
  | bary
  | higher
  | highest
deriving DecidableEq

/-- Preconditioners (cs_param_precond_type_t). -/
inductive PrecondType
  | diag
  | poly1
  | ssor
  | ilu0
  | icc0
  | amg
  | addSchwarz
deriving DecidableEq

/-- Iterative solvers (cs_param_itsol_type_t). -/
inductive ItsolType
  | cg
  | bicg
  | gmres
  | amg
deriving DecidableEq

/-- Solver families (cs_equation_algo_type_t): in-house Code_Saturne solvers
or the PETSc ecosystem. -/
inductive AlgoType
  | csItsol
  | petscItsol
deriving DecidableEq

/-- Boundary condition kinds (cs_param_bc_type_t), with the sentinel
CS_PARAM_N_BC_TYPES. -/
inductive BcType
  | dirichlet
  | hmgDirichlet
  | neumann
  | hmgNeumann
  | robin
  | nBcTypes
deriving DecidableEq

/-- Definition kinds for payloads (cs_param_def_type_t), with sentinel. -/
inductive DefType
  | byValue
  | byArray
  | byAnalytic
  | byUser
  | nDefTypes
deriving DecidableEq

/-- Kind of the unknown (cs_param_var_type_t), with sentinel. -/
inductive VarType
  | scal
  | vect
  | tens
  | nVarTypes
deriving DecidableEq

/-- Modelled from the spec: equation kinds (cs_equation_type_t is declared in
the missing header cs_equation.h); the spec lists user, predefined and
derived-physics kinds, and the getter returns the sentinel CS_EQUATION_N_TYPES
for a NULL equation. -/
inductive EqType
  | user
  | predefined
  | derivedPhysics
  | nTypes
deriving DecidableEq

/-- Boundary-condition enforcement choices (cs_param_bc_enforce_t). -/
inductive BcEnforce
  | strong
  | weakPena
  | weakSym
  | weakNitsche
deriving DecidableEq

/-- Reaction term types (cs_param_reaction_type_t); only linear is
implemented. -/
inductive ReactionType
  | linear
deriving DecidableEq

/-- Tag recording which scheme implementation a function-pointer slot of the
equation points at after cs_equation_last_setup (the implementations
themselves, cs_cdovb_scaleq_* and cs_cdofb_scaleq_*, are external
collaborators). -/
inductive SchemeFn
  | cdovb
  | cdofb
deriving DecidableEq

/-- The equation flag bit set (CS_EQUATION_LOCKED, CS_EQUATION_UNSTEADY,
CS_EQUATION_CONVECTION, CS_EQUATION_DIFFUSION, CS_EQUATION_REACTION,
CS_EQUATION_HCONF_ST), modelled one Bool per bit. -/
structure EqFlagSet where
  locked : Bool
  unsteady : Bool
  convection : Bool
  diffusion : Bool
  reaction : Bool
  hconfSt : Bool
deriving DecidableEq

/-- The zero flag value (no bit set). -/
def EqFlagSet.zero : EqFlagSet :=
  { locked := false, unsteady := false, convection := false,
    diffusion := false, reaction := false, hconfSt := false }

/-- The post-processing flag bit set (CS_EQUATION_POST_NONE,
CS_EQUATION_POST_PECLET, CS_EQUATION_POST_UPWIND_COEF). -/
structure ProcessFlag where
  postNone : Bool
  postPeclet : Bool
  postUpwindCoef : Bool
deriving DecidableEq

/-- The zero process flag. -/
def ProcessFlag.zero : ProcessFlag :=
  { postNone := false, postPeclet := false, postUpwindCoef := false }

/-- Stand-in rational for indeterminate (never initialized, never read by any
claim) double fields; the C code leaves time_hodge.coef uninitialized in
_create_equation_param. -/
def uninitRat : Rat := 0

/-- Rational stand-in for the double value 1/sqrt(3) assigned by the sushi
choice of a Hodge coefficient; no claim depends on its exact value, only on
the assignment taking place. -/
def sushiCoef : Rat := mkRat 5773502691896258 10000000000000000

/-- Discrete Hodge operator parameters (cs_param_hodge_t). -/
structure HodgeParam where
  invPty : Bool
  type : HodgeType
  algo : HodgeAlgo
  coef : Rat
deriving DecidableEq

/-- One initial-condition definition (cs_param_def_t as used for
time_info.ic_definitions); the payload set through cs_param_set_def is an
external union, kept as the raw value handle. -/
structure IcDef where
  mlName : String
  defType : DefType
deriving DecidableEq

/-- Time discretization parameters (cs_param_time_t); n_ic_definitions is the
length of icDefinitions. -/
structure TimeInfo where
  scheme : TimeSchemeKind
  theta : Rat
  doLumping : Bool
  icDefinitions : List IcDef
deriving DecidableEq

/-- Advection parameters (cs_param_advection_t). -/
structure AdvectionInfo where
  formulation : AdvFormulation
  weightAlgo : AdvWeightAlgo
  weightCriterion : AdvWeightCrit
  quadType : QuadType
deriving DecidableEq

/-- Iterative solver parameters (cs_param_itsol_t). -/
structure ItsolInfo where
  precond : PrecondType
  solver : ItsolType
  nMaxIter : Int
  eps : Rat
  outputFreq : Int
  residNormalized : Bool
deriving DecidableEq

/-- Linear-algebra driving parameters (cs_equation_algo_t). -/
structure AlgoInfo where
  type : AlgoType
  nIters : Int
  maxNIters : Int
  nCumulatedIters : Int
  maxNCumulatedIters : Int
  eps : Rat
deriving DecidableEq

/-- One boundary-condition definition (cs_param_bc_def_t).  Modelled from the
spec: cs_param_bc_def_set lives in the missing cs_param.c; per the spec a
boundary definition binds a mesh location, a bc kind, a definition kind and a
payload; the fields mirror the arguments cs_equation_add_bc passes to it
(coef2 is unused). -/
structure BcDef where
  locId : Int
  bcType : BcType
  varType : VarType
  defType : DefType
  coef1 : String
deriving DecidableEq

/-- Boundary condition set (cs_param_bc_t). -/
structure ParamBc where
  defaultBc : BcType
  enforcement : BcEnforce
  quadType : QuadType
  useSubdiv : Bool
  defs : List BcDef
deriving DecidableEq

/-- Modelled from the spec: cs_param_bc_create lives in the missing
cs_param.c; per the spec the parameter store starts from an empty
boundary-condition definition list carrying the requested default kind (the
enforcement and quadrature defaults are not relied upon by any claim). -/
def cs_param_bc_create (defaultBc : BcType) : ParamBc :=
  { defaultBc := defaultBc, enforcement := BcEnforce.strong,
    quadType := QuadType.bary, useSubdiv := false, defs := [] }

/-- One reaction term (cs_param_reaction_t); built by cs_param_reaction_add
from a name, a Hodge type, a Hodge algorithm and a reaction type. -/
structure ReactionTerm where
  name : String
  hodge : HodgeParam
  doLumping : Bool
  rType : ReactionType
deriving DecidableEq

/-- Modelled from the spec: cs_param_reaction_add lives in the missing
cs_param.c; per the spec a reaction-term descriptor binds a name, a Hodge
descriptor and a lumping flag; it records exactly the arguments
cs_equation_add_reaction passes (lumping off, Hodge coefficient left to its
later setters). -/
def cs_param_reaction_add (name : String) (hType : HodgeType)
    (hAlgo : HodgeAlgo) (rType : ReactionType) : ReactionTerm :=
  { name := name,
    hodge := { invPty := false, type := hType, algo := hAlgo,
               coef := uninitRat },
    doLumping := false,
    rType := rType }

/-- One source term (cs_source_term_t, an external structure created through
cs_source_term_create); only the name and mesh location are observed here. -/
structure SourceTerm where
  name : String
  mlId : Int
deriving DecidableEq

/-- The per-equation parameter set (cs_equation_param_t).  Material
properties and advection fields are opaque external handles (Int), NULL being
Option.none. -/
structure EquationParam where
  type : EqType
  varType : VarType
  verbosity : Int
  slesVerbosity : Int
  processFlag : ProcessFlag
  flag : EqFlagSet
  spaceScheme : SpaceScheme
  timeHodge : HodgeParam
  timeProperty : Option Int
  timeInfo : TimeInfo
  diffusionProperty : Option Int
  diffusionHodge : HodgeParam
  advectionInfo : AdvectionInfo
  advectionField : Option Int
  reactionTerms : List ReactionTerm
  reactionProperties : List Int
  sourceTerms : List SourceTerm
  bc : ParamBc
  algoInfo : AlgoInfo
  itsolInfo : ItsolInfo
deriving DecidableEq

/-- Default linear-algebra settings (_algo_info_by_default); the family
depends on whether PETSc is compiled in (HAVE_PETSC). -/
def _algo_info_by_default (havePetsc : Bool) : AlgoInfo :=
  { type := if havePetsc then AlgoType.petscItsol else AlgoType.csItsol,
    nIters := 0,
    maxNIters := 50,
    nCumulatedIters := 0,
    maxNCumulatedIters := 10000,
    eps := mkRat 1 1000000 }

/-- Default iterative-solver settings (_itsol_info_by_default); BiCGStab with
ILU0 when PETSc is compiled in, CG with a diagonal (Jacobi) preconditioner
otherwise. -/
def _itsol_info_by_default (havePetsc : Bool) : ItsolInfo :=
  { precond := if havePetsc then PrecondType.ilu0 else PrecondType.diag,
    solver := if havePetsc then ItsolType.bicg else ItsolType.cg,
    nMaxIter := 2500,
    eps := mkRat 1 1000000000000,
    outputFreq := 150,
    residNormalized := false }

/-- Creation of a parameter set with its defaults (_create_equation_param). -/
def _create_equation_param (havePetsc : Bool) (type : EqType)
    (varType : VarType) (defaultBc : BcType) : EquationParam :=
  { type := type,
    varType := varType,
    verbosity := 0,
    slesVerbosity := 0,
    processFlag := ProcessFlag.zero,
    flag := EqFlagSet.zero,
    spaceScheme := SpaceScheme.cdovb,
    timeHodge := { invPty := false, type := HodgeType.vpcd,
                   algo := HodgeAlgo.voronoi, coef := uninitRat },
    timeProperty := none,
    timeInfo := { scheme := TimeSchemeKind.implicitScheme, theta := 1,
                  doLumping := false, icDefinitions := [] },
    diffusionProperty := none,
    diffusionHodge := { invPty := false, type := HodgeType.epfd,
                        algo := HodgeAlgo.cost, coef := mkRat 1 3 },
    advectionInfo := { formulation := AdvFormulation.conservative,
                       weightAlgo := AdvWeightAlgo.upwind,
                       weightCriterion := AdvWeightCrit.xexc,
                       quadType := QuadType.bary },
    advectionField := none,
    reactionTerms := [],
    reactionProperties := [],
    sourceTerms := [],
    bc := cs_param_bc_create defaultBc,
    algoInfo := _algo_info_by_default havePetsc,
    itsolInfo := _itsol_info_by_default havePetsc }

/-- One named equation instance (struct _cs_equation_t).  The matrix
structure, matrix, right-hand side and builder are opaque external handles;
the scheme function pointers are recorded as SchemeFn tags (none = NULL). -/
structure Equation where
  name : String
  param : EquationParam
  varname : String
  fieldId : Int
  mainTsId : Int
  preTsId : Int
  solveTsId : Int
  extraOpTsId : Int
  doBuild : Bool
  ms : Option Int
  matrix : Option Int
  rhs : Option Int
  builder : Option Int
  initBuilder : Option SchemeFn
  freeBuilder : Option SchemeFn
  buildSystem : Option SchemeFn
  computeSource : Option SchemeFn
  updateField : Option SchemeFn
  postprocess : Option SchemeFn
  getFValues : Option SchemeFn
  getTmpbuf : Option SchemeFn
deriving DecidableEq

/-- Creation of an equation (cs_equation_create); names are modelled as plain
strings (the C NULL-name checks abort and are outside every claim), the field
is created in a second step (field_id = -1), do_build starts true, and all
function-pointer slots start NULL. -/
def cs_equation_create (havePetsc : Bool) (eqname varname : String)
    (eqtype : EqType) (vartype : VarType) (defaultBc : BcType) : Equation :=
  { name := eqname,
    param := _create_equation_param havePetsc eqtype vartype defaultBc,
    varname := varname,
    fieldId := -1,
    mainTsId := -1,
    preTsId := -1,
    solveTsId := -1,
    extraOpTsId := -1,
    doBuild := true,
    ms := none,
    matrix := none,
    rhs := none,
    builder := none,
    initBuilder := none,
    freeBuilder := none,
    buildSystem := none,
    computeSource := none,
    updateField := none,
    postprocess := none,
    getFValues := none,
    getTmpbuf := none }

/-! Configuration surface: string keys, libc-style numeric parsing, and the
validated setters. -/

/-- Character-list core of the strncmp-against-a-literal test of
_get_eqkey. -/
def strStartsAux : List Char → List Char → Bool
  | _, [] => true
  | [], _ :: _ => false
  | c :: cs, d :: ds => decide (c = d) && strStartsAux cs ds

/-- The strncmp(keyname, lit, strlen(lit)) == 0 test: true when the first
string begins with the second. -/
def strStarts (s pre0 : String) : Bool :=
  strStartsAux s.data pre0.data

/-- Digit accumulation used by the numeric parsers. -/
def digitsToNat (cs : List Char) : Nat :=
  cs.foldl (fun acc c => 10 * acc + (c.toNat - 48)) 0

/-- Model of the C library atof as used by cs_equation.c: an optional sign
followed by decimal digits and an optional fractional part; a string with no
leading numeric prefix parses to 0, as atof does.  The value is assembled as
(intpart * 10 ^ k + fracdigits) / 10 ^ k over the k fractional digits.
(Exponent notation is never used by the vocabulary of this file and is not
modelled.) -/
def atof (s : String) : Rat :=
  let cs0 := s.data
  let sgn : Bool × List Char :=
    match cs0 with
    | '-' :: rest => (true, rest)
    | '+' :: rest => (false, rest)
    | _ => (false, cs0)
  let cs := sgn.2
  let intPart := cs.takeWhile (fun c => c.isDigit)
  let rest := cs.dropWhile (fun c => c.isDigit)
  let fracPart : List Char :=
    match rest with
    | '.' :: r => r.takeWhile (fun c => c.isDigit)
    | _ => []
  let den : Nat := 10 ^ fracPart.length
  let num : Nat := digitsToNat intPart * den + digitsToNat fracPart
  if sgn.1 then mkRat (-(num : Int)) den else mkRat (num : Int) den

/-- Model of the C library atoi: an optional sign followed by decimal digits;
no numeric prefix parses to 0. -/
def atoi (s : String) : Int :=
  let cs0 := s.data
  let sgn : Bool × List Char :=
    match cs0 with
    | '-' :: rest => (true, rest)
    | '+' :: rest => (false, rest)
    | _ => (false, cs0)
  let ds := sgn.2.takeWhile (fun c => c.isDigit)
  let n : Int := (digitsToNat ds : Nat)
  if sgn.1 then -n else n

/-- The smallest positive normal double, DBL_MIN = 2 ^ (-1022), used by the
homogeneous boundary-condition test fabs(value) < DBL_MIN. -/
def dblMin : Rat := mkRat 1 (2 ^ 1022)

/-- Keys accepted by cs_equation_set_option (eqkey_t); EQKEY_ERROR closes the
enum. -/
inductive EqKey
  | hodgeDiffAlgo
  | hodgeDiffCoef
  | hodgeTimeAlgo
  | hodgeTimeCoef
  | itsol
  | itsolEps
  | itsolMaxIter
  | itsolResnorm
  | precond
  | solverFamily
  | spaceScheme
  | verbosity
  | slesVerbosity
  | bcEnforcement
  | bcQuadrature
  | extraOp
  | advOpType
  | advWeightAlgo
  | advWeightCrit
  | advFluxQuadra
  | timeScheme
  | timeTheta
  | keyError
deriving DecidableEq

/-- Key-string recognition (_get_eqkey): the strncmp prefix dispatch followed
by exact strcmp matches; any unmatched string yields EQKEY_ERROR. -/
def _get_eqkey (keyname : String) : EqKey :=
  if strStarts keyname "hodge" then
    if keyname = "hodge_diff_coef" then EqKey.hodgeDiffCoef
    else if keyname = "hodge_diff_algo" then EqKey.hodgeDiffAlgo
    else if keyname = "hodge_time_coef" then EqKey.hodgeTimeCoef
    else if keyname = "hodge_time_algo" then EqKey.hodgeTimeAlgo
    else EqKey.keyError
  else if strStarts keyname "itsol" then
    if keyname = "itsol" then EqKey.itsol
    else if keyname = "itsol_eps" then EqKey.itsolEps
    else if keyname = "itsol_max_iter" then EqKey.itsolMaxIter
    else if keyname = "itsol_resnorm" then EqKey.itsolResnorm
    else if keyname = "itsol_verbosity" then EqKey.slesVerbosity
    else EqKey.keyError
  else if keyname = "precond" then EqKey.precond
  else if keyname = "solver_family" then EqKey.solverFamily
  else if keyname = "space_scheme" then EqKey.spaceScheme
  else if keyname = "verbosity" then EqKey.verbosity
  else if strStarts keyname "bc" then
    if keyname = "bc_enforcement" then EqKey.bcEnforcement
    else if keyname = "bc_quadrature" then EqKey.bcQuadrature
    else EqKey.keyError
  else if keyname = "extra_op" then EqKey.extraOp
  else if strStarts keyname "adv_" then
    if keyname = "adv_formulation" then EqKey.advOpType
    else if keyname = "adv_weight_criterion" then EqKey.advWeightCrit
    else if keyname = "adv_weight" then EqKey.advWeightAlgo
    else if keyname = "adv_flux_quad" then EqKey.advFluxQuadra
    else EqKey.keyError
  else if strStarts keyname "time_" then
    if keyname = "time_scheme" then EqKey.timeScheme
    else if keyname = "time_theta" then EqKey.timeTheta
    else EqKey.keyError
  else EqKey.keyError

/-- Errors surfaced by cs_equation_set_option; the C original reports each of
these through bft_error, which aborts the process. -/
inductive SetOptErr
  | emptyEq
  | invalidKey
  | locked
  | invalidValue
  | notImplemented
deriving DecidableEq

/-- The switch body of cs_equation_set_option: applies one recognized key and
value to a parameter set.  Every branch is translated from the corresponding
case of the C switch (including the branches that silently accept an
unrecognized value: itsol_resnorm and extra_op, and the numeric atof and atoi
fallbacks). -/
def applyEqKey (key : EqKey) (val : String) (p : EquationParam) :
    Except SetOptErr EquationParam :=
  match key with
  | EqKey.spaceScheme =>
      if val = "cdo_vb" then
        Except.ok { p with
          spaceScheme := SpaceScheme.cdovb,
          timeHodge := { p.timeHodge with type := HodgeType.vpcd },
          diffusionHodge := { p.diffusionHodge with type := HodgeType.epfd } }
      else if val = "cdo_fb" then
        Except.ok { p with
          spaceScheme := SpaceScheme.cdofb,
          timeHodge := { p.timeHodge with type := HodgeType.cpvd },
          diffusionHodge := { p.diffusionHodge with type := HodgeType.edfp } }
      else Except.error SetOptErr.invalidValue
  | EqKey.hodgeDiffAlgo =>
      if val = "cost" then
        Except.ok { p with
          diffusionHodge := { p.diffusionHodge with algo := HodgeAlgo.cost } }
      else if val = "voronoi" then
        Except.ok { p with
          diffusionHodge := { p.diffusionHodge with
                              algo := HodgeAlgo.voronoi } }
      else if val = "wbs" then
        Except.ok { p with
          diffusionHodge := { p.diffusionHodge with algo := HodgeAlgo.wbs } }
      else Except.error SetOptErr.invalidValue
  | EqKey.hodgeTimeAlgo =>
      if val = "cost" then
        Except.ok { p with
          timeHodge := { p.timeHodge with algo := HodgeAlgo.cost } }
      else if val = "voronoi" then
        Except.ok { p with
          timeHodge := { p.timeHodge with algo := HodgeAlgo.voronoi } }
      else if val = "wbs" then
        Except.ok { p with
          timeHodge := { p.timeHodge with algo := HodgeAlgo.wbs } }
      else Except.error SetOptErr.invalidValue
  | EqKey.hodgeDiffCoef =>
      if val = "dga" then
        Except.ok { p with
          diffusionHodge := { p.diffusionHodge with coef := mkRat 1 3 } }
      else if val = "sushi" then
        Except.ok { p with
          diffusionHodge := { p.diffusionHodge with coef := sushiCoef } }
      else if val = "gcr" then
        Except.ok { p with
          diffusionHodge := { p.diffusionHodge with coef := 1 } }
      else
        Except.ok { p with
          diffusionHodge := { p.diffusionHodge with coef := atof val } }
  | EqKey.hodgeTimeCoef =>
      if val = "dga" then
        Except.ok { p with timeHodge := { p.timeHodge with coef := mkRat 1 3 } }
      else if val = "sushi" then
        Except.ok { p with
          timeHodge := { p.timeHodge with coef := sushiCoef } }
      else if val = "gcr" then
        Except.ok { p with timeHodge := { p.timeHodge with coef := 1 } }
      else
        Except.ok { p with
          timeHodge := { p.timeHodge with coef := atof val } }
  | EqKey.solverFamily =>
      if val = "cs" then
        Except.ok { p with
          algoInfo := { p.algoInfo with type := AlgoType.csItsol } }
      else if val = "petsc" then
        Except.ok { p with
          algoInfo := { p.algoInfo with type := AlgoType.petscItsol } }
      else Except.error SetOptErr.invalidValue
  | EqKey.itsol =>
      if val = "cg" then
        Except.ok { p with
          itsolInfo := { p.itsolInfo with solver := ItsolType.cg } }
      else if val = "bicg" then
        Except.ok { p with
          itsolInfo := { p.itsolInfo with solver := ItsolType.bicg } }
      else if val = "gmres" then
        Except.ok { p with
          itsolInfo := { p.itsolInfo with solver := ItsolType.gmres } }
      else if val = "amg" then
        Except.ok { p with
          itsolInfo := { p.itsolInfo with solver := ItsolType.amg } }
      else Except.error SetOptErr.invalidValue
  | EqKey.precond =>
      if val = "jacobi" then
        Except.ok { p with
          itsolInfo := { p.itsolInfo with precond := PrecondType.diag } }
      else if val = "poly1" then
        Except.ok { p with
          itsolInfo := { p.itsolInfo with precond := PrecondType.poly1 } }
      else if val = "ssor" then
        Except.ok { p with
          itsolInfo := { p.itsolInfo with precond := PrecondType.ssor } }
      else if val = "ilu0" then
        Except.ok { p with
          itsolInfo := { p.itsolInfo with precond := PrecondType.ilu0 } }
      else if val = "icc0" then
        Except.ok { p with
          itsolInfo := { p.itsolInfo with precond := PrecondType.icc0 } }
      else if val = "amg" then
        Except.ok { p with
          itsolInfo := { p.itsolInfo with precond := PrecondType.amg } }
      else if val = "as" then
        Except.ok { p with
          itsolInfo := { p.itsolInfo with precond := PrecondType.addSchwarz } }
      else Except.error SetOptErr.invalidValue
  | EqKey.itsolMaxIter =>
      Except.ok { p with
        itsolInfo := { p.itsolInfo with nMaxIter := atoi val } }
  | EqKey.itsolEps =>
      Except.ok { p with itsolInfo := { p.itsolInfo with eps := atof val } }
  | EqKey.itsolResnorm =>
      if val = "true" then
        Except.ok { p with
          itsolInfo := { p.itsolInfo with residNormalized := true } }
      else if val = "false" then
        Except.ok { p with
          itsolInfo := { p.itsolInfo with residNormalized := false } }
      else Except.ok p
  | EqKey.verbosity =>
      Except.ok { p with verbosity := atoi val }
  | EqKey.slesVerbosity =>
      Except.ok { p with slesVerbosity := atoi val }
  | EqKey.bcEnforcement =>
      if val = "strong" then
        Except.ok { p with bc := { p.bc with enforcement := BcEnforce.strong } }
      else if val = "penalization" then
        Except.ok { p with
          bc := { p.bc with enforcement := BcEnforce.weakPena } }
      else if val = "weak_sym" then
        Except.ok { p with
          bc := { p.bc with enforcement := BcEnforce.weakSym } }
      else if val = "weak" then
        Except.ok { p with
          bc := { p.bc with enforcement := BcEnforce.weakNitsche } }
      else Except.error SetOptErr.invalidValue
  | EqKey.bcQuadrature =>
      if val = "subdiv" then
        Except.ok { p with bc := { p.bc with useSubdiv := true } }
      else if val = "bary" then
        Except.ok { p with bc := { p.bc with quadType := QuadType.bary } }
      else if val = "higher" then
        Except.ok { p with bc := { p.bc with quadType := QuadType.higher } }
      else if val = "highest" then
        Except.ok { p with bc := { p.bc with quadType := QuadType.highest } }
      else Except.error SetOptErr.invalidValue
  | EqKey.extraOp =>
      if val = "peclet" then
        Except.ok { p with
          processFlag := { p.processFlag with postPeclet := true } }
      else if val = "none" then
        Except.ok { p with
          processFlag := { p.processFlag with postNone := true } }
      else if val = "upwind_coef" then
        Except.ok { p with
          processFlag := { p.processFlag with postUpwindCoef := true } }
      else Except.ok p
  | EqKey.advOpType =>
      if val = "conservative" then
        Except.ok { p with
          advectionInfo := { p.advectionInfo with
                             formulation := AdvFormulation.conservative } }
      else if val = "non_conservative" then
        Except.ok { p with
          advectionInfo := { p.advectionInfo with
                             formulation := AdvFormulation.nonConservative } }
      else Except.error SetOptErr.invalidValue
  | EqKey.advWeightAlgo =>
      if val = "upwind" then
        Except.ok { p with
          advectionInfo := { p.advectionInfo with
                             weightAlgo := AdvWeightAlgo.upwind } }
      else if val = "samarskii" then
        Except.ok { p with
          advectionInfo := { p.advectionInfo with
                             weightAlgo := AdvWeightAlgo.samarskii } }
      else if val = "sg" then
        Except.ok { p with
          advectionInfo := { p.advectionInfo with
                             weightAlgo := AdvWeightAlgo.sg } }
      else if val = "d10g5" then
        Except.ok { p with
          advectionInfo := { p.advectionInfo with
                             weightAlgo := AdvWeightAlgo.d10g5 } }
      else if val = "centered" then
        Except.ok { p with
          advectionInfo := { p.advectionInfo with
                             weightAlgo := AdvWeightAlgo.centered } }
      else Except.error SetOptErr.invalidValue
  | EqKey.advWeightCrit =>
      if val = "xexc" then
        Except.ok { p with
          advectionInfo := { p.advectionInfo with
                             weightCriterion := AdvWeightCrit.xexc } }
      else if val = "flux" then
        Except.ok { p with
          advectionInfo := { p.advectionInfo with
                             weightCriterion := AdvWeightCrit.flux } }
      else Except.error SetOptErr.invalidValue
  | EqKey.advFluxQuadra =>
      if val = "bary" then
        Except.ok { p with
          advectionInfo := { p.advectionInfo with
                             quadType := QuadType.bary } }
      else if val = "higher" then
        Except.ok { p with
          advectionInfo := { p.advectionInfo with
                             quadType := QuadType.higher } }
      else if val = "highest" then
        Except.ok { p with
          advectionInfo := { p.advectionInfo with
                             quadType := QuadType.highest } }
      else Except.error SetOptErr.invalidValue
  | EqKey.timeScheme =>
      if val = "implicit" then
        Except.ok { p with
          timeInfo := { p.timeInfo with
                        scheme := TimeSchemeKind.implicitScheme,
                        theta := 1 } }
      else if val = "explicit" then
        Except.ok { p with
          timeInfo := { p.timeInfo with
                        scheme := TimeSchemeKind.explicitScheme,
                        theta := 0 } }
      else if val = "crank_nicolson" then
        Except.ok { p with
          timeInfo := { p.timeInfo with
                        scheme := TimeSchemeKind.crankNicolson,
                        theta := mkRat 1 2 } }
      else if val = "theta_scheme" then
        Except.ok { p with
          timeInfo := { p.timeInfo with
                        scheme := TimeSchemeKind.thetaScheme } }
      else Except.error SetOptErr.invalidValue
  | EqKey.timeTheta =>
      Except.ok { p with timeInfo := { p.timeInfo with theta := atof val } }
  | EqKey.keyError => Except.error SetOptErr.notImplemented

/-- Validated setter cs_equation_set_option: a NULL equation aborts
(emptyEq); an unrecognized key aborts (invalidKey) before the lock is even
consulted; a locked parameter set aborts (locked); otherwise the switch body
applyEqKey runs. -/
def cs_equation_set_option (eq : Option Equation) (keyname val : String) :
    Except SetOptErr Equation :=
  match eq with
  | none => Except.error SetOptErr.emptyEq
  | some e =>
    match _get_eqkey keyname with
    | EqKey.keyError => Except.error SetOptErr.invalidKey
    | k =>
      if e.param.flag.locked then Except.error SetOptErr.locked
      else
        match applyEqKey k val e.param with
        | Except.ok p => Except.ok { e with param := p }
        | Except.error err => Except.error err

/-- Errors surfaced by cs_equation_link. -/
inductive LinkErr
  | emptyEq
  | invalidKeyword
deriving DecidableEq

/-- Association of a property or advection field with a term
(cs_equation_link): raises the term-presence flag and stores the handle.
Note that no lock check is performed by the C function. -/
def cs_equation_link (eq : Option Equation) (keyword : String)
    (pointer : Int) : Except LinkErr Equation :=
  match eq with
  | none => Except.error LinkErr.emptyEq
  | some e =>
    if keyword = "diffusion" then
      Except.ok { e with param := { e.param with
        flag := { e.param.flag with diffusion := true },
        diffusionProperty := some pointer } }
    else if keyword = "time" then
      Except.ok { e with param := { e.param with
        flag := { e.param.flag with unsteady := true },
        timeProperty := some pointer } }
    else if keyword = "advection" then
      Except.ok { e with param := { e.param with
        flag := { e.param.flag with convection := true },
        advectionField := some pointer } }
    else Except.error LinkErr.invalidKeyword

/-- Errors surfaced by cs_equation_add_bc. -/
inductive AddBcErr
  | emptyEq
  | invalidMeshLocation
  | invalidDefKey
  | invalidBcKey
deriving DecidableEq

/-- Addition of a boundary condition definition (cs_equation_add_bc).  The
mesh-location registry cs_mesh_location_get_id_by_name is an external
collaborator passed as mlIdOf, returning -1 for an unknown name (checked by
_check_ml_name).  A scalar value-definition whose parsed value satisfies
fabs(v) < DBL_MIN downgrades Dirichlet and Neumann kinds to their homogeneous
variants.  No lock check is performed by the C function. -/
def cs_equation_add_bc (mlIdOf : String → Int) (eq : Option Equation)
    (mlName bcKey defKey val : String) : Except AddBcErr Equation :=
  match eq with
  | none => Except.error AddBcErr.emptyEq
  | some e =>
    let mlId := mlIdOf mlName
    if mlId = -1 then Except.error AddBcErr.invalidMeshLocation
    else
      let defType : Except AddBcErr DefType :=
        if defKey = "value" then Except.ok DefType.byValue
        else if defKey = "array" then Except.ok DefType.byArray
        else if defKey = "analytic" then Except.ok DefType.byAnalytic
        else if defKey = "user" then Except.ok DefType.byUser
        else Except.error AddBcErr.invalidDefKey
      match defType with
      | Except.error err => Except.error err
      | Except.ok dt =>
        let bcType : Except AddBcErr BcType :=
          if bcKey = "dirichlet" then Except.ok BcType.dirichlet
          else if bcKey = "neumann" then Except.ok BcType.neumann
          else if bcKey = "robin" then Except.ok BcType.robin
          else Except.error AddBcErr.invalidBcKey
        match bcType with
        | Except.error err => Except.error err
        | Except.ok bt0 =>
          let bt :=
            if dt = DefType.byValue ∧ e.param.varType = VarType.scal then
              if |atof val| < dblMin then
                if bt0 = BcType.dirichlet then BcType.hmgDirichlet
                else if bt0 = BcType.neumann then BcType.hmgNeumann
                else bt0
              else bt0
            else bt0
          Except.ok { e with param := { e.param with
            bc := { e.param.bc with
              defs := e.param.bc.defs ++
                [{ locId := mlId, bcType := bt, varType := e.param.varType,
                   defType := dt, coef1 := val }] } } }

/-- Errors surfaced by cs_equation_add_reaction. -/
inductive AddReactionErr
  | emptyEq
  | invalidReactionType
  | fbNotImplemented
  | invalidScheme
deriving DecidableEq

/-- Two-digit zero-padded rendering of a reaction id, as sprintf with the
reaction_%02d format produces for ids below 100. -/
def defaultReactionName (rId : Nat) : String :=
  if rId < 10 then "reaction_0" ++ toString rId
  else "reaction_" ++ toString rId

/-- Registration of a reaction term (cs_equation_add_reaction): appends a
named term (default name reaction_NN when none is given) and its property
handle to the two parallel per-equation arrays, sets the WBS/VPCD Hodge
recipe for vertex-based schemes (face-based is not implemented and aborts),
and raises the reaction flag. -/
def cs_equation_add_reaction (eq : Option Equation) (rName : Option String)
    (typeName : String) (property : Int) : Except AddReactionErr Equation :=
  match eq with
  | none => Except.error AddReactionErr.emptyEq
  | some e =>
    let rId := e.param.reactionTerms.length
    let name :=
      match rName with
      | none => defaultReactionName rId
      | some n => n
    if typeName = "linear" then
      match e.param.spaceScheme with
      | SpaceScheme.cdovb =>
        let term := cs_param_reaction_add name HodgeType.vpcd HodgeAlgo.wbs
          ReactionType.linear
        Except.ok { e with param := { e.param with
          reactionTerms := e.param.reactionTerms ++ [term],
          reactionProperties := e.param.reactionProperties ++ [property],
          flag := { e.param.flag with reaction := true } } }
      | SpaceScheme.cdofb => Except.error AddReactionErr.fbNotImplemented
      | SpaceScheme.nSchemes => Except.error AddReactionErr.invalidScheme
    else Except.error AddReactionErr.invalidReactionType

/-- Index of the first reaction term bearing the requested name, as the
linear search of cs_equation_get_reaction_property computes it. -/
def findReactionIdx (terms : List ReactionTerm) (rName : String) :
    Option Nat :=
  match terms with
  | [] => none
  | t :: rest =>
    if t.name = rName then some 0
    else
      match findReactionIdx rest rName with
      | some i => some (i + 1)
      | none => none

/-- Outcome of cs_equation_get_reaction_property: the NULL pointer returned
for a NULL equation or name, the fatal lookup failure, or the stored property
handle. -/
inductive GetReactionResult
  | nullPtr
  | notFound
  | property (p : Int)
deriving DecidableEq

/-- Name-based reaction property accessor (cs_equation_get_reaction_property):
NULL equation or NULL name returns NULL; an unknown name aborts; otherwise
the handle stored at the matching index of the parallel property array is
returned. -/
def cs_equation_get_reaction_property (eq : Option Equation)
    (rName : Option String) : GetReactionResult :=
  match eq with
  | none => GetReactionResult.nullPtr
  | some e =>
    match rName with
    | none => GetReactionResult.nullPtr
    | some n =>
      match findReactionIdx e.param.reactionTerms n with
      | none => GetReactionResult.notFound
      | some i => GetReactionResult.property (e.param.reactionProperties.getD i 0)

/-! Linear solver binding (_sles_initialization) and final setup. -/

/-- Concrete in-house iterative solver types passed to cs_sles_it_define and
cs_multigrid_set_solver_options (cs_sles_it_type_t). -/
inductive SlesItType
  | pcg
  | bicgstab
  | gmres
  | jacobi
deriving DecidableEq

/-- PETSc setup hooks that cs_sles_petsc_define is given (one per supported
algorithm and preconditioner pair). -/
inductive PetscHook
  | cgDiag
  | cgSsor
  | cgIcc
  | cgBoomerAmg
  | cgAddSchwarz
  | gmresIlu
  | gmresBJacobi
  | bicgIlu
  | bicgBJacobi
deriving DecidableEq

/-- What _sles_initialization registers in the process-wide solver registry
for the equation's field id. -/
inductive SlesRegistration
  | slesIt (solver : SlesItType) (polyDegree : Int) (nMaxIter : Int)
  | multigrid
  | petsc (hook : PetscHook)
deriving DecidableEq

/-- Fatal outcomes of _sles_initialization (each a bft_error abort in C). -/
inductive SlesErr
  | incompatiblePrecond
  | undefinedItsol
  | petscPairNotHandled
  | petscSolverNotHandled
  | petscNotLinked
  | algoNotImplemented
deriving DecidableEq

/-- Solver binding initialization (_sles_initialization).  In-house family:
only diagonal or degree-1 polynomial preconditioning is allowed; CG, BiCGStab
and GMRES register an iterative solver.  The AMG case of the C switch
configures a multigrid solver and then, lacking a break statement, falls
through into the default branch, which raises the fatal undefined-solver
error; the model returns that error, mirroring the abort that follows the
multigrid configuration.  PETSc family: requires HAVE_PETSC, then maps the
algorithm and preconditioner pair onto a setup hook (the CG+AMG case uses the
Boomer AMG branch selected by the hard-coded amg_type = 1). -/
def _sles_initialization (havePetsc : Bool) (eq : Equation) :
    Except SlesErr SlesRegistration :=
  let itsol := eq.param.itsolInfo
  match eq.param.algoInfo.type with
  | AlgoType.csItsol =>
    let polyDegree : Int := if itsol.precond = PrecondType.poly1 then 1 else 0
    if itsol.precond ≠ PrecondType.poly1 ∧ itsol.precond ≠ PrecondType.diag
    then Except.error SlesErr.incompatiblePrecond
    else
      match itsol.solver with
      | ItsolType.cg =>
        Except.ok (SlesRegistration.slesIt SlesItType.pcg polyDegree
          itsol.nMaxIter)
      | ItsolType.bicg =>
        Except.ok (SlesRegistration.slesIt SlesItType.bicgstab polyDegree
          itsol.nMaxIter)
      | ItsolType.gmres =>
        Except.ok (SlesRegistration.slesIt SlesItType.gmres polyDegree
          itsol.nMaxIter)
      | ItsolType.amg =>
        Except.error SlesErr.undefinedItsol
  | AlgoType.petscItsol =>
    if havePetsc then
      match itsol.solver with
      | ItsolType.cg =>
        match itsol.precond with
        | PrecondType.diag => Except.ok (SlesRegistration.petsc PetscHook.cgDiag)
        | PrecondType.ssor => Except.ok (SlesRegistration.petsc PetscHook.cgSsor)
        | PrecondType.icc0 => Except.ok (SlesRegistration.petsc PetscHook.cgIcc)
        | PrecondType.amg =>
          Except.ok (SlesRegistration.petsc PetscHook.cgBoomerAmg)
        | PrecondType.addSchwarz =>
          Except.ok (SlesRegistration.petsc PetscHook.cgAddSchwarz)
        | _ => Except.error SlesErr.petscPairNotHandled
      | ItsolType.gmres =>
        match itsol.precond with
        | PrecondType.ilu0 => Except.ok (SlesRegistration.petsc PetscHook.gmresIlu)
        | PrecondType.diag =>
          Except.ok (SlesRegistration.petsc PetscHook.gmresBJacobi)
        | _ => Except.error SlesErr.petscPairNotHandled
      | ItsolType.bicg =>
        match itsol.precond with
        | PrecondType.ilu0 => Except.ok (SlesRegistration.petsc PetscHook.bicgIlu)
        | PrecondType.diag =>
          Except.ok (SlesRegistration.petsc PetscHook.bicgBJacobi)
        | _ => Except.error SlesErr.petscPairNotHandled
      | ItsolType.amg => Except.error SlesErr.petscSolverNotHandled
    else Except.error SlesErr.petscNotLinked

/-- Fatal outcomes of cs_equation_last_setup. -/
inductive LastSetupErr
  | invalidScheme
  | sles (err : SlesErr)
deriving DecidableEq

/-- Final setup (cs_equation_last_setup): a NULL equation returns silently;
otherwise the scheme function set is bound per the space scheme (vertex-based
leaves the face-value accessor NULL), vertex-based equations with a WBS
reaction Hodge gain the HCONF_ST flag, the solver binding is initialized, and
only then the parameter set is flagged locked.  (The timer-statistics
bookkeeping driven by the verbosity level touches external profiling state
only and is not modelled.) -/
def cs_equation_last_setup (havePetsc : Bool) (eq : Option Equation) :
    Except LastSetupErr (Option Equation) :=
  match eq with
  | none => Except.ok none
  | some e0 =>
    let bound : Except LastSetupErr Equation :=
      match e0.param.spaceScheme with
      | SpaceScheme.cdovb =>
        Except.ok { e0 with
          initBuilder := some SchemeFn.cdovb,
          freeBuilder := some SchemeFn.cdovb,
          buildSystem := some SchemeFn.cdovb,
          computeSource := some SchemeFn.cdovb,
          updateField := some SchemeFn.cdovb,
          postprocess := some SchemeFn.cdovb,
          getTmpbuf := some SchemeFn.cdovb,
          getFValues := none }
      | SpaceScheme.cdofb =>
        Except.ok { e0 with
          initBuilder := some SchemeFn.cdofb,
          freeBuilder := some SchemeFn.cdofb,
          buildSystem := some SchemeFn.cdofb,
          computeSource := some SchemeFn.cdofb,
          updateField := some SchemeFn.cdofb,
          postprocess := some SchemeFn.cdofb,
          getTmpbuf := some SchemeFn.cdofb,
          getFValues := some SchemeFn.cdofb }
      | SpaceScheme.nSchemes => Except.error LastSetupErr.invalidScheme
    match bound with
    | Except.error err => Except.error err
    | Except.ok e1 =>
      let e2 :=
        if e1.param.spaceScheme = SpaceScheme.cdovb ∧
            e1.param.flag.reaction = true ∧
            e1.param.reactionTerms.any
              (fun r => r.hodge.algo = HodgeAlgo.wbs) then
          { e1 with param := { e1.param with
              flag := { e1.param.flag with hconfSt := true } } }
        else e1
      match _sles_initialization havePetsc e2 with
      | Except.error err => Except.error (LastSetupErr.sles err)
      | Except.ok _ =>
        Except.ok (some { e2 with param := { e2.param with
          flag := { e2.param.flag with locked := true } } })

/-! Lifecycle: staleness flag, build, solve, and the public getters. -/

/-- Staleness report (cs_equation_needs_build); the C function dereferences
the equation without a NULL check, so the model takes a non-null equation. -/
def cs_equation_needs_build (eq : Equation) : Bool :=
  eq.doBuild

/-- System assembly (cs_equation_build_system).  The scheme builder call
produces a right-hand side and a sparse matrix (external; passed here as the
pair of handles buildOut), the matrix structure and matrix objects are
created on the first build and reused afterwards, and the staleness flag is
cleared. -/
def cs_equation_build_system (buildOut : Int × Int) (eq : Equation) :
    Equation :=
  { eq with
    rhs := some buildOut.1,
    ms := some (match eq.ms with
                | some m => m
                | none => buildOut.2),
    matrix := some (match eq.matrix with
                    | some m => m
                    | none => buildOut.2),
    doBuild := false }

/-- Resolution step (cs_equation_solve).  The sparse solve, the field
snapshot and the field update act on external collaborators (solver registry
and field); the only controller-state change is the staleness flag, re-raised
for an unsteady equation and left untouched otherwise. -/
def cs_equation_solve (eq : Equation) (doLogcvg : Bool) : Equation :=
  if eq.param.flag.unsteady then { eq with doBuild := true } else eq

/-- Destruction (cs_equation_free): returns NULL, also for a NULL input. -/
def cs_equation_free (eq : Option Equation) : Option Equation :=
  match eq with
  | none => none
  | some _ => none

/-- Settings summary (cs_equation_summary): a NULL equation returns silently;
the printed digest is modelled as the parameter set it reads. -/
def cs_equation_summary (eq : Option Equation) : Option EquationParam :=
  match eq with
  | none => none
  | some e => some e.param

/-- Post-processing trigger (cs_equation_extra_op): a NULL equation returns
silently; when the process flag requests suppression no builder call is made;
otherwise the installed postprocess slot is invoked (its tag is returned). -/
def cs_equation_extra_op (timeStep : Int) (eq : Option Equation) :
    Option SchemeFn :=
  match eq with
  | none => none
  | some e =>
    if e.param.processFlag.postNone then none
    else e.postprocess

/-- Outcome of cs_equation_get_face_values: the NULL pointer handed back for
a NULL equation, the undefined behavior of calling through a NULL get_f_values
slot (vertex-based schemes install none), or the external face-value array of
the installed accessor. -/
inductive FaceValuesResult
  | nullEq
  | nullFnCall
  | values (f : SchemeFn)
deriving DecidableEq

/-- Face-value accessor (cs_equation_get_face_values): NULL equation returns
NULL; otherwise the get_f_values slot is called unconditionally — when the
slot is NULL (vertex-based schemes) this is a call through a NULL function
pointer, not a returned indicator. -/
def cs_equation_get_face_values (eq : Option Equation) : FaceValuesResult :=
  match eq with
  | none => FaceValuesResult.nullEq
  | some e =>
    match e.getFValues with
    | none => FaceValuesResult.nullFnCall
    | some f => FaceValuesResult.values f

/-- Name getter (cs_equation_get_name): NULL-safe. -/
def cs_equation_get_name (eq : Option Equation) : Option String :=
  match eq with
  | none => none
  | some e => some e.name

/-- Field getter (cs_equation_get_field): NULL-safe; the field registry
lookup cs_field_by_id is external, so the stored field id stands for its
result. -/
def cs_equation_get_field (eq : Option Equation) : Option Int :=
  match eq with
  | none => none
  | some e => some e.fieldId

/-- Flag getter (cs_equation_get_flag): returns the zero flag for NULL. -/
def cs_equation_get_flag (eq : Option Equation) : EqFlagSet :=
  match eq with
  | none => EqFlagSet.zero
  | some e => e.param.flag

/-- Parameter-set getter (cs_equation_get_param): NULL-safe. -/
def cs_equation_get_param (eq : Option Equation) : Option EquationParam :=
  match eq with
  | none => none
  | some e => some e.param

/-- Diffusion property getter (cs_equation_get_diffusion_property):
NULL-safe. -/
def cs_equation_get_diffusion_property (eq : Option Equation) : Option Int :=
  match eq with
  | none => none
  | some e => e.param.diffusionProperty

/-- Time property getter (cs_equation_get_time_property): NULL-safe. -/
def cs_equation_get_time_property (eq : Option Equation) : Option Int :=
  match eq with
  | none => none
  | some e => e.param.timeProperty

/-- Space-scheme getter (cs_equation_get_space_scheme): returns the sentinel
CS_SPACE_N_SCHEMES for NULL. -/
def cs_equation_get_space_scheme (eq : Option Equation) : SpaceScheme :=
  match eq with
  | none => SpaceScheme.nSchemes
  | some e => e.param.spaceScheme

/-- Variable-type getter (cs_equation_get_var_type): returns the sentinel
CS_PARAM_N_VAR_TYPES for NULL. -/
def cs_equation_get_var_type (eq : Option Equation) : VarType :=
  match eq with
  | none => VarType.nVarTypes
  | some e => e.param.varType

/-- Equation-type getter (cs_equation_get_type): returns the sentinel
CS_EQUATION_N_TYPES for NULL. -/
def cs_equation_get_type (eq : Option Equation) : EqType :=
  match eq with
  | none => EqType.nTypes
  | some e => e.param.type

/-! Concrete fixtures used by witnesses and counterexamples. -/

/-- A freshly created scalar user equation on a PETSc-free build. -/
def testEq : Equation :=
  cs_equation_create false "test_eq" "test_var" EqType.user VarType.scal
    BcType.hmgDirichlet

/-- The test equation with the in-house algebraic-multigrid solver
requested. -/
def testEqAmg : Equation :=
  { testEq with param := { testEq.param with
      itsolInfo := { testEq.param.itsolInfo with
                     solver := ItsolType.amg } } }

/-- The test equation carrying the unsteady flag (as cs_equation_link with
the time keyword raises it). -/
def testEqUnsteady : Equation :=
  { testEq with param := { testEq.param with
      flag := { testEq.param.flag with unsteady := true },
      timeProperty := some 5 } }

/-! Claim theorems. -/

/-- Claim C7: creating an equation parameter set yields exactly the
documented defaults — implicit time scheme with theta 1, COST diffusion Hodge
with coefficient 1/3, Voronoi time Hodge, no reaction terms, no source terms,
an empty boundary-condition definition list carrying the requested default
kind, and in-house CG with diagonal preconditioning, or PETSc BiCGStab with
ILU0 when PETSc is compiled in. -/
theorem c7_create_defaults (havePetsc : Bool) (ty : EqType) (vt : VarType)
    (bc0 : BcType) :
    (_create_equation_param havePetsc ty vt bc0).timeInfo.scheme =
      TimeSchemeKind.implicitScheme
  ∧ (_create_equation_param havePetsc ty vt bc0).timeInfo.theta = 1
  ∧ (_create_equation_param havePetsc ty vt bc0).diffusionHodge.algo =
      HodgeAlgo.cost
  ∧ (_create_equation_param havePetsc ty vt bc0).diffusionHodge.coef = 1 / 3
  ∧ (_create_equation_param havePetsc ty vt bc0).timeHodge.algo =
      HodgeAlgo.voronoi
  ∧ (_create_equation_param havePetsc ty vt bc0).reactionTerms = []
  ∧ (_create_equation_param havePetsc ty vt bc0).sourceTerms = []
  ∧ (_create_equation_param havePetsc ty vt bc0).bc.defs = []
  ∧ (_create_equation_param havePetsc ty vt bc0).bc.defaultBc = bc0
  ∧ (havePetsc = false →
      (_create_equation_param havePetsc ty vt bc0).algoInfo.type =
        AlgoType.csItsol
      ∧ (_create_equation_param havePetsc ty vt bc0).itsolInfo.solver =
        ItsolType.cg
      ∧ (_create_equation_param havePetsc ty vt bc0).itsolInfo.precond =
        PrecondType.diag)
  ∧ (havePetsc = true →
      (_create_equation_param havePetsc ty vt bc0).algoInfo.type =
        AlgoType.petscItsol
      ∧ (_create_equation_param havePetsc ty vt bc0).itsolInfo.solver =
        ItsolType.bicg
      ∧ (_create_equation_param havePetsc ty vt bc0).itsolInfo.precond =
        PrecondType.ilu0) := by
  cases havePetsc <;>
    simp [_create_equation_param, _algo_info_by_default,
      _itsol_info_by_default, cs_param_bc_create] <;>
    norm_num [mkRat, Rat.normalize]

/-- Witness for C7 at a concrete input, discharging the build-configuration
hypotheses. -/
theorem c7_create_defaults_witness :
    (_create_equation_param false EqType.user VarType.scal
      BcType.hmgDirichlet).algoInfo.type = AlgoType.csItsol
  ∧ (_create_equation_param true EqType.user VarType.scal
      BcType.hmgDirichlet).itsolInfo.solver = ItsolType.bicg := by
  refine ⟨?_, ?_⟩
  · obtain ⟨-, -, -, -, -, -, -, -, -, h, -⟩ :=
      c7_create_defaults false EqType.user VarType.scal BcType.hmgDirichlet
    exact (h rfl).1
  · obtain ⟨-, -, -, -, -, -, -, -, -, -, h⟩ :=
      c7_create_defaults true EqType.user VarType.scal BcType.hmgDirichlet
    exact (h rfl).2.1

/-- Claim C2: for an equation carrying the unsteady flag, immediately after
cs_equation_solve the staleness flag reported by cs_equation_needs_build is
true; for an equation without the flag, cs_equation_solve leaves the
staleness flag unchanged; and every cs_equation_build_system run clears the
staleness flag. -/
theorem c2_staleness_roundtrip (eq : Equation) (lg : Bool)
    (buildOut : Int × Int) :
    (eq.param.flag.unsteady = true →
      cs_equation_needs_build (cs_equation_solve eq lg) = true)
  ∧ (eq.param.flag.unsteady = false →
      cs_equation_needs_build (cs_equation_solve eq lg) =
        cs_equation_needs_build eq)
  ∧ cs_equation_needs_build (cs_equation_build_system buildOut eq) = false := by
  refine ⟨?_, ?_, rfl⟩ <;> intro h <;>
    simp [cs_equation_solve, cs_equation_needs_build, h]

/-- Witness for C2 at concrete unsteady and steady equations. -/
theorem c2_staleness_roundtrip_witness :
    cs_equation_needs_build (cs_equation_solve testEqUnsteady false) = true
  ∧ cs_equation_needs_build (cs_equation_solve testEq false) =
      cs_equation_needs_build testEq := by
  refine ⟨?_, ?_⟩
  · exact (c2_staleness_roundtrip testEqUnsteady false (0, 0)).1 rfl
  · exact (c2_staleness_roundtrip testEq false (0, 0)).2.1 rfl

/-- Claim C10: the public operations that tolerate a NULL equation pointer
are null-safe — free returns NULL, summary and extra_op return silently, and
each getter returns NULL or its documented sentinel. -/
theorem c10_null_safety (ts : Int) :
    cs_equation_free none = none
  ∧ cs_equation_summary none = none
  ∧ cs_equation_extra_op ts none = none
  ∧ cs_equation_get_name none = none
  ∧ cs_equation_get_field none = none
  ∧ cs_equation_get_param none = none
  ∧ cs_equation_get_space_scheme none = SpaceScheme.nSchemes
  ∧ cs_equation_get_var_type none = VarType.nVarTypes
  ∧ cs_equation_get_type none = EqType.nTypes
  ∧ cs_equation_get_flag none = EqFlagSet.zero
  ∧ cs_equation_get_diffusion_property none = none
  ∧ cs_equation_get_time_property none = none
  ∧ cs_equation_get_face_values none = FaceValuesResult.nullEq
  ∧ cs_equation_get_reaction_property none (some "r") =
      GetReactionResult.nullPtr :=
  ⟨rfl, rfl, rfl, rfl, rfl, rfl, rfl, rfl, rfl, rfl, rfl, rfl, rfl, rfl⟩

/-- Claim C3 (code bug): for the in-house family the algebraic-multigrid case
of _sles_initialization configures the multigrid solver and then, missing a
break statement, falls through into the default branch and dies on the fatal
undefined-iterative-solver error, although AMG belongs to the documented
supported set; the sibling algorithms CG, BiCGStab and GMRES succeed with
both admissible preconditioners, and an inadmissible preconditioner fails
up front. -/
theorem c3_inhouse_amg_fallthrough :
    _sles_initialization false testEqAmg = Except.error SlesErr.undefinedItsol
  ∧ _sles_initialization false testEq =
      Except.ok (SlesRegistration.slesIt SlesItType.pcg 0 2500)
  ∧ _sles_initialization false
      { testEq with param := { testEq.param with
          itsolInfo := { testEq.param.itsolInfo with
                         solver := ItsolType.bicg,
                         precond := PrecondType.poly1 } } } =
      Except.ok (SlesRegistration.slesIt SlesItType.bicgstab 1 2500)
  ∧ _sles_initialization false
      { testEq with param := { testEq.param with
          itsolInfo := { testEq.param.itsolInfo with
                         solver := ItsolType.gmres } } } =
      Except.ok (SlesRegistration.slesIt SlesItType.gmres 0 2500)
  ∧ _sles_initialization false
      { testEq with param := { testEq.param with
          itsolInfo := { testEq.param.itsolInfo with
                         precond := PrecondType.ilu0 } } } =
      Except.error SlesErr.incompatiblePrecond :=
  ⟨rfl, rfl, rfl, rfl, rfl⟩

/-- Claim C6: on a scalar equation, a boundary condition defined by a value
string parsing to zero is recorded with the homogeneous kind (Dirichlet
becomes homogeneous-Dirichlet, Neumann becomes homogeneous-Neumann), while a
nonzero value such as 0.1 is recorded with the ordinary kind. -/
theorem c6_homogeneous_bc (mlIdOf : String → Int) (eq : Equation)
    (mlname : String) (hscal : eq.param.varType = VarType.scal)
    (hml : ¬ mlIdOf mlname = -1) :
    cs_equation_add_bc mlIdOf (some eq) mlname "dirichlet" "value" "0.0" =
      Except.ok { eq with param := { eq.param with bc := { eq.param.bc with
        defs := eq.param.bc.defs ++
          [{ locId := mlIdOf mlname, bcType := BcType.hmgDirichlet,
             varType := VarType.scal, defType := DefType.byValue,
             coef1 := "0.0" }] } } }
  ∧ cs_equation_add_bc mlIdOf (some eq) mlname "neumann" "value" "0.0" =
      Except.ok { eq with param := { eq.param with bc := { eq.param.bc with
        defs := eq.param.bc.defs ++
          [{ locId := mlIdOf mlname, bcType := BcType.hmgNeumann,
             varType := VarType.scal, defType := DefType.byValue,
             coef1 := "0.0" }] } } }
  ∧ cs_equation_add_bc mlIdOf (some eq) mlname "dirichlet" "value" "0.1" =
      Except.ok { eq with param := { eq.param with bc := { eq.param.bc with
        defs := eq.param.bc.defs ++
          [{ locId := mlIdOf mlname, bcType := BcType.dirichlet,
             varType := VarType.scal, defType := DefType.byValue,
             coef1 := "0.1" }] } } }
  ∧ cs_equation_add_bc mlIdOf (some eq) mlname "neumann" "value" "0.1" =
      Except.ok { eq with param := { eq.param with bc := { eq.param.bc with
        defs := eq.param.bc.defs ++
          [{ locId := mlIdOf mlname, bcType := BcType.neumann,
             varType := VarType.scal, defType := DefType.byValue,
             coef1 := "0.1" }] } } } := by
  refine ⟨?_, ?_, ?_, ?_⟩ <;>
    · simp only [cs_equation_add_bc]
      rw [hscal, if_neg hml]
      rfl

/-- Witness for C6: a concrete mesh-location registry and scalar equation. -/
theorem c6_homogeneous_bc_witness :
    cs_equation_add_bc (fun _ => 1) (some testEq) "boundary" "dirichlet"
      "value" "0.0" =
      Except.ok { testEq with param := { testEq.param with
        bc := { testEq.param.bc with
          defs := testEq.param.bc.defs ++
            [{ locId := 1, bcType := BcType.hmgDirichlet,
               varType := VarType.scal, defType := DefType.byValue,
               coef1 := "0.0" }] } } } := by
  have h := c6_homogeneous_bc (fun _ => 1) testEq "boundary" rfl (by decide)
  exact h.1

/-- The test equation as cs_equation_last_setup leaves it: vertex-based
function set bound, no face-value accessor, parameter set locked. -/
def testEqVbSetup : Equation :=
  { testEq with
    initBuilder := some SchemeFn.cdovb,
    freeBuilder := some SchemeFn.cdovb,
    buildSystem := some SchemeFn.cdovb,
    computeSource := some SchemeFn.cdovb,
    updateField := some SchemeFn.cdovb,
    postprocess := some SchemeFn.cdovb,
    getTmpbuf := some SchemeFn.cdovb,
    getFValues := none,
    param := { testEq.param with
      flag := { testEq.param.flag with locked := true } } }

/-- Counterexample for C5: on a concrete vertex-based equation that went
through cs_equation_last_setup, cs_equation_get_face_values calls through
the NULL get_f_values slot — undefined behavior, not a returned
error/absent-capability indicator (the only indicator the function ever
returns is the NULL result reserved for a NULL equation). -/
theorem c5_counterexample :
    testEq.param.spaceScheme = SpaceScheme.cdovb
  ∧ cs_equation_last_setup false (some testEq) =
      Except.ok (some testEqVbSetup)
  ∧ cs_equation_get_face_values (some testEqVbSetup) =
      FaceValuesResult.nullFnCall
  ∧ FaceValuesResult.nullFnCall ≠ FaceValuesResult.nullEq :=
  ⟨rfl, rfl, rfl, by decide⟩

/-- Claim C5 as amended: for a vertex-based equation,
cs_equation_last_setup installs no face-value accessor (the slot stays
NULL), and a subsequent cs_equation_get_face_values call dereferences that
NULL function pointer instead of returning an indicator; the NULL indicator
is returned only for a NULL equation argument. -/
theorem c5_amended (hp : Bool) (e e1 : Equation)
    (hvb : e.param.spaceScheme = SpaceScheme.cdovb)
    (hsetup : cs_equation_last_setup hp (some e) = Except.ok (some e1)) :
    e1.getFValues = none
  ∧ cs_equation_get_face_values (some e1) = FaceValuesResult.nullFnCall
  ∧ cs_equation_get_face_values none = FaceValuesResult.nullEq := by
  simp only [cs_equation_last_setup, hvb] at hsetup
  split at hsetup
  · exact absurd hsetup (by simp)
  · rw [Except.ok.injEq, Option.some.injEq] at hsetup
    subst hsetup
    refine ⟨?_, ?_, rfl⟩ <;> · split <;> rfl

/-- Witness for C5 as amended, at the concrete vertex-based test equation. -/
theorem c5_amended_witness :
    testEqVbSetup.getFValues = none
  ∧ cs_equation_get_face_values (some testEqVbSetup) =
      FaceValuesResult.nullFnCall
  ∧ cs_equation_get_face_values none = FaceValuesResult.nullEq :=
  c5_amended false testEq testEqVbSetup rfl rfl

/-- The locked test equation after cs_equation_link attached a diffusion
property to it. -/
def testEqVbLinked : Equation :=
  { testEqVbSetup with param := { testEqVbSetup.param with
      flag := { testEqVbSetup.param.flag with diffusion := true },
      diffusionProperty := some 7 } }

/-- Counterexample for C1: after cs_equation_last_setup has locked the
concrete test equation, cs_equation_link succeeds and mutates the parameter
set (and cs_equation_add_bc also succeeds), instead of failing with the
Locked error. -/
theorem c1_counterexample :
    cs_equation_last_setup false (some testEq) =
      Except.ok (some testEqVbSetup)
  ∧ testEqVbSetup.param.flag.locked = true
  ∧ cs_equation_link (some testEqVbSetup) "diffusion" 7 =
      Except.ok testEqVbLinked
  ∧ testEqVbLinked.param.diffusionProperty ≠
      testEqVbSetup.param.diffusionProperty
  ∧ (cs_equation_add_bc (fun _ => 1) (some testEqVbSetup) "boundary"
      "dirichlet" "value" "0.5").isOk = true :=
  ⟨rfl, rfl, rfl, by decide, rfl⟩

/-- Claim C1 as amended: after final setup, cs_equation_set_option with a
recognized key fails with Locked (an unrecognized key still fails with
InvalidKey, which is checked first) and the parameter set is unchanged on
either failure, while cs_equation_link and cs_equation_add_bc perform no
lock check and mutate the parameter set as on an unlocked equation. -/
theorem c1_amended (e : Equation) (k v : String) (ptr : Int)
    (hlock : e.param.flag.locked = true) :
    (¬ _get_eqkey k = EqKey.keyError →
      cs_equation_set_option (some e) k v = Except.error SetOptErr.locked)
  ∧ (_get_eqkey k = EqKey.keyError →
      cs_equation_set_option (some e) k v = Except.error SetOptErr.invalidKey)
  ∧ (∃ e2, cs_equation_link (some e) "diffusion" ptr = Except.ok e2
      ∧ e2.param.flag.diffusion = true
      ∧ e2.param.diffusionProperty = some ptr) := by
  refine ⟨?_, ?_, ⟨_, rfl, rfl, rfl⟩⟩
  · intro hk
    cases hkey : _get_eqkey k <;>
      first
        | exact absurd hkey hk
        | simp [cs_equation_set_option, hkey, hlock]
  · intro hk
    simp [cs_equation_set_option, hk]

/-- Witness for C1 as amended, on the concrete locked test equation. -/
theorem c1_amended_witness :
    cs_equation_set_option (some testEqVbSetup) "itsol" "cg" =
      Except.error SetOptErr.locked
  ∧ cs_equation_set_option (some testEqVbSetup) "no_such_key" "x" =
      Except.error SetOptErr.invalidKey := by
  have h := c1_amended testEqVbSetup "itsol" "cg" 7 rfl
  have h2 := c1_amended testEqVbSetup "no_such_key" "x" 7 rfl
  exact ⟨h.1 (by decide), h2.2.1 (by decide)⟩

/-- The first-match search of the reaction table finds nothing when no entry
bears the requested name. -/
theorem findReactionIdx_of_fresh (ts : List ReactionTerm) (nm : String)
    (h : ∀ t ∈ ts, t.name ≠ nm) : findReactionIdx ts nm = none := by
  induction ts with
  | nil => rfl
  | cons t rest ih =>
    simp only [findReactionIdx]
    rw [if_neg (h t (by simp)), ih (fun u hu => h u (by simp [hu]))]

/-- The first-match search finds a freshly appended entry at the old list
length when no earlier entry bears the requested name. -/
theorem findReactionIdx_append_fresh (ts : List ReactionTerm)
    (t : ReactionTerm) (nm : String) (h : ∀ u ∈ ts, u.name ≠ nm)
    (ht : t.name = nm) :
    findReactionIdx (ts ++ [t]) nm = some ts.length := by
  induction ts with
  | nil => simp [findReactionIdx, ht]
  | cons u rest ih =>
    simp only [List.cons_append, findReactionIdx]
    rw [if_neg (h u (by simp)), List.append_eq,
      ih (fun x hx => h x (by simp [hx]))]
    rfl

/-- Reading a parallel array right after appending to it returns the new
element. -/
theorem getD_append_length (l : List Int) (p d : Int) :
    (l ++ [p]).getD l.length d = p := by
  induction l with
  | nil => rfl
  | cons a rest ih => simpa using ih

/-- Counterexample for C9: registering a second reaction term under an
already used name and looking that name up returns the handle of the first
registration, not the one passed at the second registration. -/
theorem c9_counterexample :
    ∃ e1 e2,
      cs_equation_add_reaction (some testEq) (some "r") "linear" 1 =
        Except.ok e1
    ∧ cs_equation_add_reaction (some e1) (some "r") "linear" 2 =
        Except.ok e2
    ∧ cs_equation_get_reaction_property (some e2) (some "r") =
        GetReactionResult.property 1
    ∧ GetReactionResult.property 1 ≠ GetReactionResult.property 2 :=
  ⟨_, _, rfl, rfl, rfl, by decide⟩

/-- Claim C9 as amended: provided no reaction term with the requested name
was registered before, registering a reaction term under that name and
looking it up via the reaction-property accessor returns exactly the property
handle passed at registration; looking up a name under which no reaction term
was registered fails with the fatal not-found error. -/
theorem c9_amended (e e1 : Equation) (nm : String) (prop : Int)
    (hlen : e.param.reactionTerms.length = e.param.reactionProperties.length)
    (hfresh : ∀ t ∈ e.param.reactionTerms, t.name ≠ nm)
    (hadd : cs_equation_add_reaction (some e) (some nm) "linear" prop =
      Except.ok e1) :
    cs_equation_get_reaction_property (some e1) (some nm) =
      GetReactionResult.property prop
  ∧ ∀ n : String, (∀ t ∈ e.param.reactionTerms, t.name ≠ n) →
      cs_equation_get_reaction_property (some e) (some n) =
        GetReactionResult.notFound := by
  constructor
  · simp only [cs_equation_add_reaction] at hadd
    split at hadd
    · split at hadd
      · rw [Except.ok.injEq] at hadd
        subst hadd
        simp only [cs_equation_get_reaction_property]
        rw [findReactionIdx_append_fresh _ _ _ hfresh rfl]
        simp only [hlen, getD_append_length]
      · exact absurd hadd (by simp)
      · exact absurd hadd (by simp)
    · exact absurd hadd (by simp)
  · intro n hn
    simp only [cs_equation_get_reaction_property]
    rw [findReactionIdx_of_fresh _ _ hn]

/-- Witness for C9 as amended: a fresh registration on the plain test
equation. -/
theorem c9_amended_witness :
    ∃ e1, cs_equation_add_reaction (some testEq) (some "my_reaction")
        "linear" 42 = Except.ok e1
    ∧ cs_equation_get_reaction_property (some e1) (some "my_reaction") =
        GetReactionResult.property 42
    ∧ cs_equation_get_reaction_property (some testEq) (some "absent") =
        GetReactionResult.notFound := by
  refine ⟨_, rfl, ?_⟩
  have h := c9_amended testEq _ "my_reaction" 42 rfl (by simp [testEq,
    cs_equation_create, _create_equation_param]) rfl
  exact ⟨h.1, h.2 "absent" (by simp [testEq, cs_equation_create,
    _create_equation_param])⟩

/-- The documented field-group footprint of one successful
cs_equation_set_option call: the parameter set after the call equals the old
one with only the key's field group replaced.  The space-scheme group also
covers the two Hodge types, which the source resets together with the
scheme. -/
def paramFrame (key : EqKey) (p q : EquationParam) : Prop :=
  match key with
  | EqKey.spaceScheme =>
      ∃ s ht dt, q = { p with
        spaceScheme := s,
        timeHodge := { p.timeHodge with type := ht },
        diffusionHodge := { p.diffusionHodge with type := dt } }
  | EqKey.hodgeDiffAlgo =>
      ∃ a, q = { p with
        diffusionHodge := { p.diffusionHodge with algo := a } }
  | EqKey.hodgeTimeAlgo =>
      ∃ a, q = { p with timeHodge := { p.timeHodge with algo := a } }
  | EqKey.hodgeDiffCoef =>
      ∃ c, q = { p with
        diffusionHodge := { p.diffusionHodge with coef := c } }
  | EqKey.hodgeTimeCoef =>
      ∃ c, q = { p with timeHodge := { p.timeHodge with coef := c } }
  | EqKey.solverFamily =>
      ∃ t, q = { p with algoInfo := { p.algoInfo with type := t } }
  | EqKey.itsol =>
      ∃ s, q = { p with itsolInfo := { p.itsolInfo with solver := s } }
  | EqKey.precond =>
      ∃ c, q = { p with itsolInfo := { p.itsolInfo with precond := c } }
  | EqKey.itsolMaxIter =>
      ∃ n, q = { p with itsolInfo := { p.itsolInfo with nMaxIter := n } }
  | EqKey.itsolEps =>
      ∃ c, q = { p with itsolInfo := { p.itsolInfo with eps := c } }
  | EqKey.itsolResnorm =>
      ∃ b, q = { p with
        itsolInfo := { p.itsolInfo with residNormalized := b } }
  | EqKey.verbosity => ∃ n, q = { p with verbosity := n }
  | EqKey.slesVerbosity => ∃ n, q = { p with slesVerbosity := n }
  | EqKey.bcEnforcement =>
      ∃ b, q = { p with bc := { p.bc with enforcement := b } }
  | EqKey.bcQuadrature =>
      ∃ qt sd, q = { p with
        bc := { p.bc with quadType := qt, useSubdiv := sd } }
  | EqKey.extraOp => ∃ f, q = { p with processFlag := f }
  | EqKey.advOpType => ∃ a, q = { p with advectionInfo := a }
  | EqKey.advWeightAlgo => ∃ a, q = { p with advectionInfo := a }
  | EqKey.advWeightCrit => ∃ a, q = { p with advectionInfo := a }
  | EqKey.advFluxQuadra => ∃ a, q = { p with advectionInfo := a }
  | EqKey.timeScheme =>
      ∃ s th, q = { p with
        timeInfo := { p.timeInfo with scheme := s, theta := th } }
  | EqKey.timeTheta =>
      ∃ th, q = { p with timeInfo := { p.timeInfo with theta := th } }
  | EqKey.keyError => False

/-- Every successful switch-body application stays inside its key's
documented field group. -/
theorem applyEqKey_frame (key : EqKey) (v : String) (p q : EquationParam)
    (h : applyEqKey key v p = Except.ok q) : paramFrame key p q := by
  cases key <;> simp only [applyEqKey] at h <;> repeat' split at h
  all_goals
    first
      | (rw [Except.ok.injEq] at h; subst h;
         first
           | exact ⟨_, rfl⟩
           | exact ⟨_, _, rfl⟩
           | exact ⟨_, _, _, rfl⟩)
      | simp at h

/-- The vertex-based space-scheme choice also installs the vertex-based pair
of Hodge types. -/
theorem applyEqKey_space_vb (p q : EquationParam)
    (h : applyEqKey EqKey.spaceScheme "cdo_vb" p = Except.ok q) :
    q.spaceScheme = SpaceScheme.cdovb
  ∧ q.timeHodge.type = HodgeType.vpcd
  ∧ q.diffusionHodge.type = HodgeType.epfd := by
  simp only [applyEqKey] at h
  split at h
  · rw [Except.ok.injEq] at h
    subst h
    exact ⟨rfl, rfl, rfl⟩
  · rename_i hc
    exact absurd trivial hc

/-- The face-based space-scheme choice also installs the face-based pair of
Hodge types. -/
theorem applyEqKey_space_fb (p q : EquationParam)
    (h : applyEqKey EqKey.spaceScheme "cdo_fb" p = Except.ok q) :
    q.spaceScheme = SpaceScheme.cdofb
  ∧ q.timeHodge.type = HodgeType.cpvd
  ∧ q.diffusionHodge.type = HodgeType.edfp := by
  simp only [applyEqKey] at h
  split at h
  · rename_i hc
    exact absurd hc (by decide)
  · split at h
    · rw [Except.ok.injEq] at h
      subst h
      exact ⟨rfl, rfl, rfl⟩
    · rename_i hc
      exact absurd trivial hc

/-- Claim C8: every successful cs_equation_set_option call mutates exactly
one field group of the parameter set and leaves all other fields unchanged;
in particular, setting the space scheme to the vertex-based scheme also sets
the time and diffusion Hodge types to the vertex-based pair, and the
face-based scheme installs the face-based pair. -/
theorem c8_set_option_frame (e e1 : Equation) (k v : String)
    (hok : cs_equation_set_option (some e) k v = Except.ok e1) :
    paramFrame (_get_eqkey k) e.param e1.param
  ∧ (_get_eqkey k = EqKey.spaceScheme → v = "cdo_vb" →
      e1.param.spaceScheme = SpaceScheme.cdovb
      ∧ e1.param.timeHodge.type = HodgeType.vpcd
      ∧ e1.param.diffusionHodge.type = HodgeType.epfd)
  ∧ (_get_eqkey k = EqKey.spaceScheme → v = "cdo_fb" →
      e1.param.spaceScheme = SpaceScheme.cdofb
      ∧ e1.param.timeHodge.type = HodgeType.cpvd
      ∧ e1.param.diffusionHodge.type = HodgeType.edfp) := by
  have hp : applyEqKey (_get_eqkey k) v e.param = Except.ok e1.param := by
    cases hkey : _get_eqkey k <;>
      simp only [cs_equation_set_option, hkey] at hok <;>
      first
        | exact absurd hok (by simp)
        | (split at hok
           · exact absurd hok (by simp)
           · split at hok
             · rename_i p hap
               rw [Except.ok.injEq] at hok
               subst hok
               exact hap
             · exact absurd hok (by simp))
  refine ⟨applyEqKey_frame _ _ _ _ hp, ?_, ?_⟩
  · intro hkey hv
    subst hv
    rw [hkey] at hp
    exact applyEqKey_space_vb _ _ hp
  · intro hkey hv
    subst hv
    rw [hkey] at hp
    exact applyEqKey_space_fb _ _ hp

/-- Witness for C8: a concrete face-based space-scheme switch on the test
equation. -/
theorem c8_set_option_frame_witness :
    ∃ e1, cs_equation_set_option (some testEq) "space_scheme" "cdo_fb" =
        Except.ok e1
    ∧ paramFrame (_get_eqkey "space_scheme") testEq.param e1.param
    ∧ e1.param.spaceScheme = SpaceScheme.cdofb
    ∧ e1.param.timeHodge.type = HodgeType.cpvd
    ∧ e1.param.diffusionHodge.type = HodgeType.edfp := by
  refine ⟨_, rfl, ?_⟩
  have h := c8_set_option_frame testEq _ "space_scheme" "cdo_fb" rfl
  exact ⟨h.1, h.2.2 rfl rfl⟩

/-- Evaluation of the key recognizer on every documented key string. -/
theorem get_eqkey_evals :
    _get_eqkey "space_scheme" = EqKey.spaceScheme
  ∧ _get_eqkey "hodge_diff_algo" = EqKey.hodgeDiffAlgo
  ∧ _get_eqkey "hodge_time_algo" = EqKey.hodgeTimeAlgo
  ∧ _get_eqkey "hodge_diff_coef" = EqKey.hodgeDiffCoef
  ∧ _get_eqkey "hodge_time_coef" = EqKey.hodgeTimeCoef
  ∧ _get_eqkey "solver_family" = EqKey.solverFamily
  ∧ _get_eqkey "itsol" = EqKey.itsol
  ∧ _get_eqkey "itsol_eps" = EqKey.itsolEps
  ∧ _get_eqkey "itsol_max_iter" = EqKey.itsolMaxIter
  ∧ _get_eqkey "itsol_resnorm" = EqKey.itsolResnorm
  ∧ _get_eqkey "itsol_verbosity" = EqKey.slesVerbosity
  ∧ _get_eqkey "precond" = EqKey.precond
  ∧ _get_eqkey "verbosity" = EqKey.verbosity
  ∧ _get_eqkey "bc_enforcement" = EqKey.bcEnforcement
  ∧ _get_eqkey "bc_quadrature" = EqKey.bcQuadrature
  ∧ _get_eqkey "extra_op" = EqKey.extraOp
  ∧ _get_eqkey "adv_formulation" = EqKey.advOpType
  ∧ _get_eqkey "adv_weight" = EqKey.advWeightAlgo
  ∧ _get_eqkey "adv_weight_criterion" = EqKey.advWeightCrit
  ∧ _get_eqkey "adv_flux_quad" = EqKey.advFluxQuadra
  ∧ _get_eqkey "time_scheme" = EqKey.timeScheme
  ∧ _get_eqkey "time_theta" = EqKey.timeTheta := by
  decide

/-- The documented setOption keys whose value strings are validated against a
closed sub-vocabulary, with that sub-vocabulary; written down from the
documented configuration surface of the spec, to be compared against the
source behavior. -/
def strictKeyVocab : List (String × List String) :=
  [("space_scheme", ["cdo_vb", "cdo_fb"]),
   ("hodge_diff_algo", ["cost", "voronoi", "wbs"]),
   ("hodge_time_algo", ["cost", "voronoi", "wbs"]),
   ("solver_family", ["cs", "petsc"]),
   ("itsol", ["cg", "bicg", "gmres", "amg"]),
   ("precond", ["jacobi", "poly1", "ssor", "ilu0", "icc0", "amg", "as"]),
   ("bc_enforcement", ["strong", "penalization", "weak_sym", "weak"]),
   ("bc_quadrature", ["subdiv", "bary", "higher", "highest"]),
   ("adv_formulation", ["conservative", "non_conservative"]),
   ("adv_weight", ["upwind", "samarskii", "sg", "d10g5", "centered"]),
   ("adv_weight_criterion", ["xexc", "flux"]),
   ("adv_flux_quad", ["bary", "higher", "highest"]),
   ("time_scheme", ["implicit", "explicit", "crank_nicolson",
                    "theta_scheme"])]

/-- The documented setOption keys whose value is read as a number (atof or
atoi), so that any value string is accepted; written down from the documented
configuration surface of the spec. -/
def numericEqKeys : List String :=
  ["hodge_diff_coef", "hodge_time_coef", "itsol_eps", "itsol_max_iter",
   "verbosity", "itsol_verbosity", "time_theta"]

/-- On an unlocked equation with a recognized key, the success of
cs_equation_set_option is exactly the success of its switch body. -/
theorem set_option_isOk_iff (e : Equation) (k v : String)
    (hlock : e.param.flag.locked = false)
    (hkey : ¬ _get_eqkey k = EqKey.keyError) :
    (cs_equation_set_option (some e) k v).isOk =
      (applyEqKey (_get_eqkey k) v e.param).isOk := by
  cases hk : _get_eqkey k <;>
    first
      | exact absurd hk hkey
      | (simp only [cs_equation_set_option, hk, hlock, Bool.false_eq_true,
           if_false]
         cases happ : applyEqKey (_get_eqkey k) v e.param <;>
           rw [hk] at happ <;> simp [happ, Except.isOk, Except.toBool])

/-- Counterexample for C4: on the unlocked test equation, the recognized key
itsol_resnorm with the out-of-vocabulary value string maybe does not fail
with InvalidValue — the call succeeds and performs no mutation at all. -/
theorem c4_counterexample :
    testEq.param.flag.locked = false
  ∧ _get_eqkey "itsol_resnorm" = EqKey.itsolResnorm
  ∧ cs_equation_set_option (some testEq) "itsol_resnorm" "maybe" =
      Except.ok testEq :=
  ⟨rfl, by decide, rfl⟩

/-- Claim C4 as amended: on an unlocked equation, a key string outside the
key vocabulary fails with InvalidKey; for the strictly validated keys a value
outside the key's documented sub-vocabulary fails with InvalidValue and every
documented value is accepted; the numeric keys accept any value string,
parsing it numerically; and the keys itsol_resnorm and extra_op accept their
documented values but silently ignore any other value, succeeding without
mutation. -/
theorem c4_amended (e : Equation) (hlock : e.param.flag.locked = false) :
    (∀ k v, _get_eqkey k = EqKey.keyError →
      cs_equation_set_option (some e) k v = Except.error SetOptErr.invalidKey)
  ∧ (∀ k vs v, (k, vs) ∈ strictKeyVocab → ¬ v ∈ vs →
      cs_equation_set_option (some e) k v =
        Except.error SetOptErr.invalidValue)
  ∧ (∀ k vs v, (k, vs) ∈ strictKeyVocab → v ∈ vs →
      (cs_equation_set_option (some e) k v).isOk = true)
  ∧ (∀ k v, k ∈ numericEqKeys →
      (cs_equation_set_option (some e) k v).isOk = true)
  ∧ (∀ v, ¬ v ∈ ["true", "false"] →
      cs_equation_set_option (some e) "itsol_resnorm" v = Except.ok e)
  ∧ (∀ v, ¬ v ∈ ["peclet", "none", "upwind_coef"] →
      cs_equation_set_option (some e) "extra_op" v = Except.ok e) := by
  have hev := get_eqkey_evals
  refine ⟨?_, ?_, ?_, ?_, ?_, ?_⟩
  · intro k v hk
    simp [cs_equation_set_option, hk]
  · intro k vs v hmem hv
    fin_cases hmem <;>
      · simp only [List.mem_cons, List.mem_singleton, List.not_mem_nil,
          or_false, not_or] at hv
        simp [cs_equation_set_option, hev, hlock, applyEqKey, hv]
  · intro k vs v hmem hvin
    fin_cases hmem <;> fin_cases hvin <;>
      · rw [set_option_isOk_iff _ _ _ hlock (by decide)]
        rfl
  · intro k v hmem
    fin_cases hmem <;>
      · rw [set_option_isOk_iff _ _ _ hlock (by decide)]
        simp only [hev, applyEqKey]
        repeat' split
        all_goals rfl
  · intro v hv
    simp only [List.mem_cons, List.mem_singleton, List.not_mem_nil,
      or_false, not_or] at hv
    simp [cs_equation_set_option, hev, hlock, applyEqKey, hv]
  · intro v hv
    simp only [List.mem_cons, List.mem_singleton, List.not_mem_nil,
      or_false, not_or] at hv
    simp [cs_equation_set_option, hev, hlock, applyEqKey, hv]

/-- Witness for C4 as amended, at concrete keys and values on the unlocked
test equation. -/
theorem c4_amended_witness :
    cs_equation_set_option (some testEq) "bad_key" "x" =
      Except.error SetOptErr.invalidKey
  ∧ cs_equation_set_option (some testEq) "itsol" "nope" =
      Except.error SetOptErr.invalidValue
  ∧ (cs_equation_set_option (some testEq) "itsol" "gmres").isOk = true
  ∧ (cs_equation_set_option (some testEq) "time_theta" "0.57").isOk = true
  ∧ cs_equation_set_option (some testEq) "extra_op" "bogus" =
      Except.ok testEq := by
  have h := c4_amended testEq rfl
  exact ⟨h.1 "bad_key" "x" (by decide),
    h.2.1 "itsol" ["cg", "bicg", "gmres", "amg"] "nope" (by decide)
      (by decide),
    h.2.2.1 "itsol" ["cg", "bicg", "gmres", "amg"] "gmres" (by decide)
      (by decide),
    h.2.2.2.1 "time_theta" "0.57" (by decide),
    h.2.2.2.2.2 "bogus" (by decide)⟩

end CsEquation
